import Mathlib

/-!
Verification of the agent gateway core of the python-flask-ai-monitoring
repository (stage 4-python-autogen-mcp-github), by shallow embedding of the
relevant python modules into Lean and proving the specified properties.

Modules embedded:
- tools/cache/weather_cache.py  (WeatherCache)
- util/llm_utils.py             (model rotation)
- server/agent.py               (tool adapter registry, retry loop, chat and feedback endpoints)
- tools/middleware/tools_middleware.py (ToolsRequestMiddleware body inspection and replay)

Machine time is modelled as an integer number of seconds; python dicts are
modelled as association lists whose keys stay unique (insert removes the old
binding first), which preserves lookup and size semantics; python floats are
modelled as exact rationals.
-/

namespace Spec2Proof

/-! ### WeatherCache (tools/cache/weather_cache.py) -/

/-- Mirrors the dataclass WeatherCacheEntry: data, timestamp, city.
Timestamps are integer seconds (datetime.now()). -/
structure WeatherCacheEntry where
  data : String
  timestamp : ℤ
  city : String
deriving DecidableEq

/-- State of a WeatherCache object: the dict self._cache, the timedelta
self._ttl (in seconds), and the counters self._hits / self._misses. -/
structure WeatherCache where
  cache : List (String × WeatherCacheEntry)
  ttl : ℤ
  hits : ℕ
  misses : ℕ
deriving DecidableEq

/-- python str.lower(), the key normalization of the cache. -/
def pyLower (s : String) : String := String.mk (s.data.map Char.toLower)

/-- Dict lookup for the association-list model. -/
def lookupKey {α : Type} (k : String) : List (String × α) → Option α
  | [] => none
  | (k2, v) :: rest => if k2 = k then some v else lookupKey k rest

/-- Python del of a dict key, for the association-list model. -/
def delKey {α : Type} (k : String) : List (String × α) → List (String × α)
  | [] => []
  | (k2, v) :: rest => if k2 = k then delKey k rest else (k2, v) :: delKey k rest

/-- WeatherCache.__init__(ttl_minutes): empty dict, ttl = timedelta(minutes=ttl_minutes),
counters zero. -/
def WeatherCache.init (ttl_minutes : ℤ) : WeatherCache :=
  ⟨[], ttl_minutes * 60, 0, 0⟩

/-- WeatherCache.get (weather_cache.py lines 39-101): normalize the key with
lower(); on a present entry compare age = now - timestamp against the ttl:
strictly younger is a hit (hits += 1, return data); otherwise the entry is
deleted and control falls through to the miss path (misses += 1, return None);
an absent key is a miss. Returns the python return value paired with the
mutated cache object. -/
def WeatherCache.get (c : WeatherCache) (now : ℤ) (city : String) :
    Option String × WeatherCache :=
  match lookupKey (pyLower city) c.cache with
  | some entry =>
      if now - entry.timestamp < c.ttl then
        (some entry.data, { c with hits := c.hits + 1 })
      else
        (none, { c with cache := delKey (pyLower city) c.cache, misses := c.misses + 1 })
  | none => (none, { c with misses := c.misses + 1 })

/-- WeatherCache.set (lines 103-123): normalize the key, unconditionally
overwrite, stamp the current time. -/
def WeatherCache.set (c : WeatherCache) (now : ℤ) (city data : String) : WeatherCache :=
  { c with cache := (pyLower city, ⟨data, now, city⟩) :: delKey (pyLower city) c.cache }

/-- WeatherCache.clear (lines 125-128): empties the dict, counters untouched. -/
def WeatherCache.clearAll (c : WeatherCache) : WeatherCache :=
  { c with cache := [] }

/-- Round-half-to-even on an exact rational, the rounding rule of python round(). -/
def roundHalfEven (q : ℚ) : ℤ :=
  if q - ⌊q⌋ < 1/2 then ⌊q⌋
  else if (1 : ℚ)/2 < q - ⌊q⌋ then ⌊q⌋ + 1
  else if ⌊q⌋ % 2 = 0 then ⌊q⌋ else ⌊q⌋ + 1

/-- python round(x, 2), on exact rationals. -/
def round2 (q : ℚ) : ℚ := (roundHalfEven (q * 100) : ℚ) / 100

/-- The dict returned by WeatherCache.get_stats (lines 130-145). -/
structure CacheStats where
  hits : ℚ
  misses : ℚ
  size : ℚ
  hit_rate_percent : ℚ

/-- WeatherCache.get_stats: total = hits + misses; hit_rate = hits/total*100
when total > 0, else 0; hit_rate_percent is round(hit_rate, 2). -/
def WeatherCache.get_stats (c : WeatherCache) : CacheStats :=
  ⟨(c.hits : ℚ), (c.misses : ℚ), (c.cache.length : ℚ),
    round2 (if 0 < c.hits + c.misses
      then (c.hits : ℚ) / ((c.hits : ℚ) + (c.misses : ℚ)) * 100
      else 0)⟩

/-- The cache operations a client can perform, for describing reachable states. -/
inductive CacheOp where
  | get (now : ℤ) (city : String)
  | set (now : ℤ) (city data : String)
  | clear

/-- Apply one operation to the cache state. -/
def WeatherCache.applyOp (c : WeatherCache) : CacheOp → WeatherCache
  | CacheOp.get now city => (c.get now city).2
  | CacheOp.set now city data => c.set now city data
  | CacheOp.clear => c.clearAll

/-- Execute an operation trace from a freshly constructed cache. -/
def execCacheOps (ttl_minutes : ℤ) (ops : List CacheOp) : WeatherCache :=
  ops.foldl WeatherCache.applyOp (WeatherCache.init ttl_minutes)

/-- Number of get operations in a trace. -/
def countGets (ops : List CacheOp) : ℕ :=
  ops.countP fun o => match o with | CacheOp.get _ _ => true | _ => false

/-- A cache with the default 10-minute ttl holding one entry stored at time 0. -/
def cacheBoundaryState : WeatherCache := (WeatherCache.init 10).set 0 "Paris" "sunny"

/-- Reachable state with hits = 1 and misses = 2. -/
def cacheThirdHitState : WeatherCache :=
  execCacheOps 10 [CacheOp.set 0 "a" "v", CacheOp.get 1 "a", CacheOp.get 1 "b", CacheOp.get 1 "c"]

/-! ### Model rotation (util/llm_utils.py) -/

/-- The environment variables read by llm_utils: LLM_MODELS (os.getenv default "")
and LLM_MODEL (None when unset; the "gpt-4o-mini" default is applied at the call). -/
structure LlmEnv where
  llmModels : String
  llmModel : Option String

/-- python str.split(",") on the underlying characters: every comma is a
separator and the empty string yields one empty piece. -/
def splitCommaChars : List Char → List (List Char)
  | [] => [[]]
  | c :: rest =>
      if c = ',' then [] :: splitCommaChars rest
      else match splitCommaChars rest with
        | [] => [[c]]
        | g :: gs => (c :: g) :: gs

/-- python str.split(","). -/
def pySplitComma (s : String) : List String := (splitCommaChars s.data).map String.mk

/-- python str.strip(): drop whitespace from both ends. -/
def pyStrip (s : String) : String :=
  String.mk (((s.data.dropWhile Char.isWhitespace).reverse.dropWhile Char.isWhitespace).reverse)

/-- get_llm_models (llm_utils.py lines 26-40): when LLM_MODELS is non-empty,
split on commas, strip whitespace, and keep the non-empty pieces; otherwise
fall back to the single model [LLM_MODEL or "gpt-4o-mini"]. -/
def get_llm_models (env : LlmEnv) : List String :=
  if env.llmModels ≠ "" then
    ((pySplitComma env.llmModels).map pyStrip).filter (fun m => m != "")
  else [env.llmModel.getD "gpt-4o-mini"]

/-- get_next_llm_model (lines 55-73): round robin over get_llm_models using the
global counter _model_rotation_counter. Returns the selected model and the new
counter; an empty model list returns the default without touching the counter. -/
def get_next_llm_model (env : LlmEnv) (counter : ℕ) : String × ℕ :=
  if (get_llm_models env).isEmpty then ("gpt-4o-mini", counter)
  else
    ((get_llm_models env).getD (counter % (get_llm_models env).length) "gpt-4o-mini",
      counter + 1)

/-! ### Tool adapter registry retry loop (server/agent.py lines 130-234) -/

/-- Outcome of the retry loop of the tool adapter setup: whether it broke out
with success (false means the final exception is re-raised to the caller), how
many attempts ran, and the asyncio.sleep delays in order. -/
structure InitResult where
  success : Bool
  attempts : ℕ
  delays : List ℕ
deriving DecidableEq

/-- The for-attempt-in-range(max_retries) loop of the adapter setup
(agent.py lines 158-234), abstracted over which attempts raise (failAt).
delay is the current retry_delay; attempt the current attempt index; the last
argument the remaining loop iterations. A failing non-final attempt sleeps
retry_delay and doubles it; a failing final attempt re-raises (success false). -/
def retryGo (failAt : ℕ → Bool) (delay attempt : ℕ) : ℕ → InitResult
  | 0 => ⟨false, 0, []⟩
  | r + 1 =>
    if failAt attempt then
      if r = 0 then ⟨false, 1, []⟩
      else
        let rest := retryGo failAt (delay * 2) (attempt + 1) r
        ⟨rest.success, rest.attempts + 1, delay :: rest.delays⟩
    else ⟨true, 1, []⟩

/-- The adapter setup entry: max_retries = 5, retry_delay = 1 (lines 155-156). -/
def initToolAdapters (failAt : ℕ → Bool) : InitResult := retryGo failAt 1 0 5

/-! ### Concurrent callers of the adapter setup (server/agent.py lines 138-234)

The setup guards itself with the plain module-global boolean
_tool_adapters_initialized: it reads the flag (line 140, returning early when
true), then awaits the adapter connections (lines 170-189, each await a
suspension point), then sets the flag (line 191). Each concurrent caller is a
task with a program counter over those three phases; a scheduler step runs one
task to its next suspension point. -/

inductive TaskPc where
  | start       -- about to execute the flag check of line 140
  | connecting  -- passed the check, awaiting the connection batch (lines 170-189)
  | done        -- returned (either early or after line 191)
deriving DecidableEq

/-- Global state shared by the concurrent callers: the boolean flag, each
task's phase, how many connection batches were ever started and how many are
currently in flight. -/
structure RegState where
  inited : Bool
  pcs : List TaskPc
  attemptsStarted : ℕ
  inFlight : ℕ
deriving DecidableEq

/-- Run task i up to its next suspension point: at start, the line-140 check
either finishes the task (flag true) or begins a connection batch; at
connecting, the batch completes, publishing the flag (line 191). -/
def stepTask (s : RegState) (i : ℕ) : RegState :=
  match s.pcs.get? i with
  | some TaskPc.start =>
      if s.inited then { s with pcs := s.pcs.set i TaskPc.done }
      else { s with pcs := s.pcs.set i TaskPc.connecting,
                    attemptsStarted := s.attemptsStarted + 1,
                    inFlight := s.inFlight + 1 }
  | some TaskPc.connecting =>
      { s with inited := true, pcs := s.pcs.set i TaskPc.done,
               inFlight := s.inFlight - 1 }
  | _ => s

/-- Run a schedule, a list of task indices in execution order. -/
def runTasks (s : RegState) (sched : List ℕ) : RegState := sched.foldl stepTask s

/-- n concurrent callers entering an uninitialized registry. -/
def regStart (n : ℕ) : RegState := ⟨false, List.replicate n TaskPc.start, 0, 0⟩

/-! ### One initialization attempt over the adapter cache (agent.py lines 158-234) -/

/-- The four tool names connected in one attempt, in source order (lines 170-189). -/
def adapterNames : List String := ["calculator", "get_weather", "read_file", "get_cache_stats"]

/-- The module-global registry: _tool_adapters_cache (handles abstracted to
numbers) and _tool_adapters_initialized. -/
structure AdapterRegistry where
  cache : List (String × ℕ)
  inited : Bool
deriving DecidableEq

/-- One attempt body: assign the handle for each name into the cache dict in
order; a connector failure (none) raises out of the attempt at that point,
leaving the assignments already made in place; after all four assignments the
flag is set (line 191). conn gives the handle each named connection yields, or
none when from_server_params raises. -/
def attemptGo (conn : String → Option ℕ) : List String → AdapterRegistry → AdapterRegistry
  | [], st => { st with inited := true }
  | n :: ns, st =>
      match conn n with
      | some h => attemptGo conn ns { st with cache := (n, h) :: delKey n st.cache }
      | none => st

/-- A connector for which the first connection succeeds and the second raises. -/
def failSecondConn : String → Option ℕ := fun n => if n = "calculator" then some 7 else none

/-! ### Body inspection and replay (tools/middleware/tools_middleware.py)

ToolsRequestMiddleware.__call__ awaits one message from the ASGI receive
channel (line 65); when it is an http.request it is appended to body_cache
(line 68) and its body parsed for a transaction name; the downstream app is
then run with receive_wrapper (lines 168-177, 229), which yields the cached
messages first (tracking body_index) and delegates to the real receive
afterwards. The underlying receive channel is modelled as the list of
messages it would yield in order. -/

/-- One ASGI receive message: its "type" field, body bytes and more_body flag. -/
structure AsgiMessage where
  msgType : String
  body : String
  more_body : Bool
deriving DecidableEq

/-- State of receive_wrapper: the cached messages, the replay index body_index,
and the messages the underlying receive has yet to yield. -/
structure ReceiveState where
  body_cache : List AsgiMessage
  body_index : ℕ
  upstream : List AsgiMessage
deriving DecidableEq

/-- receive_wrapper (lines 171-177): replay the cache at body_index, else
delegate to the underlying receive (none models a channel with nothing left). -/
def receive_wrapper (st : ReceiveState) : Option AsgiMessage × ReceiveState :=
  if h : st.body_index < st.body_cache.length then
    (some (st.body_cache.get ⟨st.body_index, h⟩), { st with body_index := st.body_index + 1 })
  else
    match st.upstream with
    | [] => (none, st)
    | m :: rest => (some m, { st with upstream := rest })

/-- The sequence of messages a downstream handler that keeps calling
receive_wrapper observes (fuel bounds the number of reads). -/
def drainMessages : ℕ → ReceiveState → List AsgiMessage
  | 0, _ => []
  | fuel + 1, st =>
      match receive_wrapper st with
      | (none, _) => []
      | (some m, st2) => m :: drainMessages fuel st2

/-- Lines 60-68 and 169: the middleware consumes the first message of the
channel and caches it exactly when its type is http.request; body_index starts
at 0 and the channel continues with the remaining messages. -/
def gatewaySetup (msgs : List AsgiMessage) : ReceiveState :=
  match msgs with
  | [] => ⟨[], 0, []⟩
  | first :: rest => ⟨if first.msgType = "http.request" then [first] else [], 0, rest⟩

/-! ### Python values and the MCP envelope (tools_middleware.py lines 70-166) -/

/-- Decoded JSON/python values, as far as the middleware and the chat response
extraction inspect them. -/
inductive PyVal where
  | str (s : String)
  | int (n : ℤ)
  | bool (b : Bool)
  | list (xs : List PyVal)
  | dict (entries : List (String × PyVal))

mutual

/-- python repr() on the modelled values. -/
def pyRepr : PyVal → String
  | PyVal.str s => "\x27" ++ s ++ "\x27"
  | PyVal.int n => toString n
  | PyVal.bool b => if b then "True" else "False"
  | PyVal.list xs => "[" ++ pyReprList xs ++ "]"
  | PyVal.dict es => "\x7b" ++ pyReprDict es ++ "\x7d"

/-- Comma-joined reprs of the items of a list. -/
def pyReprList : List PyVal → String
  | [] => ""
  | [x] => pyRepr x
  | x :: y :: xs => pyRepr x ++ ", " ++ pyReprList (y :: xs)

/-- Comma-joined key: value reprs of the entries of a dict. -/
def pyReprDict : List (String × PyVal) → String
  | [] => ""
  | [(k, v)] => "\x27" ++ k ++ "\x27: " ++ pyRepr v
  | (k, v) :: e :: es => "\x27" ++ k ++ "\x27: " ++ pyRepr v ++ ", " ++ pyReprDict (e :: es)

end

/-- python str(): identity on strings, repr-based on containers and scalars. -/
def pyStr : PyVal → String
  | PyVal.str s => s
  | v => pyRepr v

/-- python dict.get(key, default). -/
def dictGet (es : List (String × PyVal)) (k : String) (default : PyVal) : PyVal :=
  match lookupKey k es with
  | some v => v
  | none => default

/-- The exception classes relevant to the middleware's except clauses. -/
inductive PyExc where
  | attributeError
  | keyError
  | jsonDecodeError
  | unicodeDecodeError
  | runtimeError
  | valueError
  | osError
deriving DecidableEq

/-- The inner except clause of line 157: (json.JSONDecodeError,
UnicodeDecodeError, KeyError). -/
def innerCaught : PyExc → Bool
  | PyExc.jsonDecodeError | PyExc.unicodeDecodeError | PyExc.keyError => true
  | _ => false

/-- The outer except clause of line 164: (RuntimeError, ValueError, OSError);
the two decode errors are ValueError subclasses. -/
def outerCaught : PyExc → Bool
  | PyExc.runtimeError | PyExc.valueError | PyExc.osError
  | PyExc.jsonDecodeError | PyExc.unicodeDecodeError => true
  | _ => false

/-- python s.replace("/", "_") for the single-character pattern used here. -/
def replaceSlashUnderscore (s : String) : String :=
  String.mk (s.data.map (fun c => if c = '/' then '_' else c))

/-- python s.strip("_"). -/
def stripUnderscore (s : String) : String :=
  String.mk (((s.data.dropWhile (fun c => c = '_')).reverse.dropWhile
    (fun c => c = '_')).reverse)

/-- The transaction-name computation of lines 74-154 applied to a decoded MCP
message, returning the uncaught exception it raises when the decoded value
does not have the expected shape: a non-dict message raises AttributeError at
mcp_message.get (line 74); a non-string method falls through every comparison
and raises AttributeError at mcp_method.replace (line 153); a tools/call with
a non-dict params raises AttributeError at params.get (line 87). -/
def parseMcpName (parsed : PyVal) : Except PyExc String :=
  match parsed with
  | PyVal.dict entries =>
      match dictGet entries "method" (PyVal.str "") with
      | PyVal.str mcpMethod =>
          if mcpMethod = "tools/list" then Except.ok "MCP/Tools/ListTools"
          else if mcpMethod = "tools/call" then
            match dictGet entries "params" (PyVal.dict []) with
            | PyVal.dict pes =>
                Except.ok ("MCP/Tools/Call/" ++ pyStr (dictGet pes "name" (PyVal.str "unknown")))
            | _ => Except.error PyExc.attributeError
          else if mcpMethod = "initialize" then Except.ok "MCP/Tools/Initialize"
          else if mcpMethod = "ping" then Except.ok "MCP/Tools/Ping"
          else Except.ok ("MCP/Tools/" ++ replaceSlashUnderscore mcpMethod)
      | _ => Except.error PyExc.attributeError
  | _ => Except.error PyExc.attributeError

/-- Lines 180-186: the fallback transaction name derived from the path alone. -/
def pathFallbackName (path : String) : String :=
  if path = "/health" ∨ path = "/" then "MCP/Tools/Health"
  else if stripUnderscore (replaceSlashUnderscore path) = "" then "MCP/Tools/root"
  else "MCP/Tools/" ++ stripUnderscore (replaceSlashUnderscore path)

/-- The whole name-computation of __call__ (lines 63-190) for an http request
whose first message is an http.request chunk: bodyEmpty is python falsiness of
the body bytes; parsed is the json.loads result (none models a
JSONDecodeError). Returns the transaction name the request proceeds with, or
the exception the middleware itself raises before calling the downstream app
(an error escaping both except clauses). -/
def middlewareOutcome (path : String) (bodyEmpty : Bool) (parsed : Option PyVal) :
    Except PyExc String :=
  match (if bodyEmpty = false ∧ path = "/mcp" then
          match parsed with
          | none => Except.ok none
          | some v =>
              match parseMcpName v with
              | Except.ok n => Except.ok (some n)
              | Except.error e =>
                  if innerCaught e then Except.ok none else Except.error e
         else Except.ok (none : Option String)) with
  | Except.ok (some n) => Except.ok n
  | Except.ok none => Except.ok (pathFallbackName path)
  | Except.error e =>
      if outerCaught e then Except.ok (pathFallbackName path) else Except.error e

/-! ### Chat response extraction and the chat/feedback endpoints (server/agent.py) -/

/-- The contribution of one content block to text_parts (lines 436-440): a dict
whose "type" equals "text" contributes its "text" value (default ""), a bare
string contributes itself, anything else contributes nothing. -/
def blockTextPart (b : PyVal) : Option PyVal :=
  match b with
  | PyVal.dict es =>
      match lookupKey "type" es with
      | some (PyVal.str s) =>
          if s = "text" then some (dictGet es "text" (PyVal.str "")) else none
      | _ => none
  | PyVal.str s => some (PyVal.str s)
  | _ => none

/-- python "".join(text_parts): concatenates string values; a non-string
element raises TypeError (the error case). -/
def joinStrs : List PyVal → Except Unit String
  | [] => Except.ok ""
  | PyVal.str s :: rest =>
      match joinStrs rest with
      | Except.ok r => Except.ok (s ++ r)
      | Except.error e => Except.error e
  | _ :: _ => Except.error ()

/-- Lines 424-443: response extraction over the content of the last agent
message (none when there are no messages or content is None). A string content
is returned as is; a list is reduced to "".join(text_parts) when text_parts is
non-empty and otherwise falls back to str(content); any other content is
str()-ed. -/
def extractResponseText (content : Option PyVal) : Except Unit String :=
  match content with
  | none => Except.ok ""
  | some (PyVal.str s) => Except.ok s
  | some (PyVal.list blocks) =>
      match blocks.filterMap blockTextPart with
      | [] => Except.ok (pyStr (PyVal.list blocks))
      | p :: ps => joinStrs (p :: ps)
  | some v => Except.ok (pyStr v)

/-- A typed non-text content block. -/
def imageBlock : PyVal := PyVal.dict [("type", PyVal.str "image"), ("url", PyVal.str "u")]

/-- The response payload of POST /chat (lines 458-465, without the trace_id
reported by the monitoring SDK). -/
structure ChatResponse where
  request_id : String
  message : String
  response : String
  duration_ms : ℕ
  model : String
deriving DecidableEq

/-- The /chat handler (lines 371-465): agent.run (line 409) is awaited with no
try/except around it, so a failing run propagates its exception out of the
handler (the error case, which the hosting framework turns into an HTTP 500);
on success the response text is extracted and the payload returned. -/
def chatEndpoint (request_id message model : String) (duration_ms : ℕ)
    (agentRun : Except String (Option PyVal)) : Except String ChatResponse :=
  match agentRun with
  | Except.error e => Except.error e
  | Except.ok content =>
      match extractResponseText content with
      | Except.error _ => Except.error "TypeError"
      | Except.ok text => Except.ok ⟨request_id, message, text, duration_ms, model⟩

/-- The two response payload shapes of POST /feedback (lines 527-545). -/
inductive FeedbackResponse where
  | success (trace_id : String) (rating : ℤ)
  | failure (trace_id : String) (error : String)
deriving DecidableEq

/-- The /feedback handler (lines 484-545): record_llm_feedback_event runs
inside try/except Exception, so a failure becomes the status:"error" payload
and a success the status:"success" payload — the handler always returns a
payload. -/
def feedbackEndpoint (trace_id : String) (rating : ℤ)
    (recordEvent : Except String Unit) : FeedbackResponse :=
  match recordEvent with
  | Except.ok _ => FeedbackResponse.success trace_id rating
  | Except.error e => FeedbackResponse.failure trace_id e

end Spec2Proof

namespace Spec2Proof

/-! ### Helper lemmas -/

theorem lookupKey_delKey_self {α : Type} (k : String) (m : List (String × α)) :
    lookupKey k (delKey k m) = none := by
  induction m with
  | nil => rfl
  | cons p m ih =>
      obtain ⟨k2, v⟩ := p
      by_cases h : k2 = k
      · simpa [delKey, h] using ih
      · simpa [delKey, lookupKey, h] using ih

theorem roundHalfEven_eval (q : ℚ) (f : ℤ) (hf : ⌊q⌋ = f) (hlt : q - f < 1/2) :
    roundHalfEven q = f := by
  unfold roundHalfEven
  rw [hf, if_pos hlt]

theorem applyOp_total (c : WeatherCache) (op : CacheOp) :
    (c.applyOp op).hits + (c.applyOp op).misses
      = c.hits + c.misses + (match op with | CacheOp.get _ _ => 1 | _ => 0) := by
  cases op with
  | get now city =>
      simp only [WeatherCache.applyOp]
      cases hl : lookupKey (pyLower city) c.cache with
      | none => simp only [WeatherCache.get, hl]; omega
      | some e =>
          by_cases h : now - e.timestamp < c.ttl
          · simp only [WeatherCache.get, hl, if_pos h]; omega
          · simp only [WeatherCache.get, hl, if_neg h]; omega
  | set now city data => simp [WeatherCache.applyOp, WeatherCache.set]
  | clear => simp [WeatherCache.applyOp, WeatherCache.clearAll]

theorem foldl_total (ops : List CacheOp) (c : WeatherCache) :
    (ops.foldl WeatherCache.applyOp c).hits + (ops.foldl WeatherCache.applyOp c).misses
      = c.hits + c.misses + countGets ops := by
  induction ops generalizing c with
  | nil => simp [countGets]
  | cons op ops ih =>
      simp only [List.foldl_cons]
      rw [ih]
      have h := applyOp_total c op
      simp only [countGets, List.countP_cons] at *
      cases op
      all_goals simp_all
      all_goals omega

/-! ### Claim theorems for the WeatherCache -/

/-- C4: get never returns a stored value whose age (now minus the stored
timestamp) is at least the ttl; a present, strictly younger entry is returned
with the hit counter incremented; a present entry at age at least the ttl is
deleted and the call is a miss returning absent. -/
theorem weather_cache_get_ttl (c : WeatherCache) (now : ℤ) (city : String) :
    (∀ v, (c.get now city).1 = some v →
        ∃ e, lookupKey (pyLower city) c.cache = some e
          ∧ now - e.timestamp < c.ttl ∧ v = e.data)
    ∧ (∀ e, lookupKey (pyLower city) c.cache = some e → now - e.timestamp < c.ttl →
        (c.get now city).1 = some e.data
          ∧ (c.get now city).2.hits = c.hits + 1
          ∧ (c.get now city).2.misses = c.misses)
    ∧ (∀ e, lookupKey (pyLower city) c.cache = some e → c.ttl ≤ now - e.timestamp →
        (c.get now city).1 = none
          ∧ lookupKey (pyLower city) ((c.get now city).2.cache) = none
          ∧ (c.get now city).2.misses = c.misses + 1) := by
  refine ⟨?_, ?_, ?_⟩
  · intro v hv
    cases hl : lookupKey (pyLower city) c.cache with
    | none => simp only [WeatherCache.get, hl] at hv; exact absurd hv (by simp)
    | some e =>
        by_cases h : now - e.timestamp < c.ttl
        · simp only [WeatherCache.get, hl, if_pos h] at hv
          exact ⟨e, rfl, h, by simpa using hv.symm⟩
        · simp only [WeatherCache.get, hl, if_neg h] at hv
          exact absurd hv (by simp)
  · intro e he hlt
    simp only [WeatherCache.get, he, if_pos hlt]
    exact ⟨trivial, trivial, trivial⟩
  · intro e he hge
    have h : ¬ (now - e.timestamp < c.ttl) := by omega
    simp only [WeatherCache.get, he, if_neg h]
    exact ⟨trivial, lookupKey_delKey_self (pyLower city) c.cache, trivial⟩

/-- Witness for C4 at the ttl boundary of the spec example: ttl of 10 minutes,
entry stored at time 0, a get at 599 seconds (9m59s) hits and a get at
600 seconds (10m00s) misses and evicts. -/
theorem weather_cache_get_ttl_witness :
    (cacheBoundaryState.get 599 "Paris").1 = some "sunny"
    ∧ (cacheBoundaryState.get 600 "Paris").1 = none
    ∧ lookupKey (pyLower "Paris") ((cacheBoundaryState.get 600 "Paris").2.cache) = none := by
  have hit := (weather_cache_get_ttl cacheBoundaryState 599 "Paris").2.1
    ⟨"sunny", 0, "Paris"⟩ (by decide) (by decide)
  have miss := (weather_cache_get_ttl cacheBoundaryState 600 "Paris").2.2
    ⟨"sunny", 0, "Paris"⟩ (by decide) (by decide)
  exact ⟨hit.1, miss.1, miss.2.1⟩

/-- C5 counterexample: in the reachable state with hits = 1 and misses = 2 the
reported hit_rate_percent is 33.33 (the code rounds to two decimals), which is
not exactly 100*hits/(hits+misses) = 100/3. -/
theorem weather_cache_hit_rate_counterexample :
    cacheThirdHitState.hits = 1 ∧ cacheThirdHitState.misses = 2
    ∧ (WeatherCache.get_stats cacheThirdHitState).hit_rate_percent = 3333/100
    ∧ (3333/100 : ℚ) ≠ 100 * 1 / (1 + 2) := by
  have hstate : cacheThirdHitState = ⟨[("a", ⟨"v", 0, "a"⟩)], 600, 1, 2⟩ := by decide
  refine ⟨by decide, by decide, ?_, by norm_num⟩
  rw [hstate]
  show round2 (if 0 < 1 + 2 then ((1:ℕ) : ℚ) / (((1:ℕ) : ℚ) + ((2:ℕ) : ℚ)) * 100 else 0)
      = 3333/100
  rw [if_pos (by norm_num)]
  unfold round2
  rw [roundHalfEven_eval _ 3333 (by norm_num) (by norm_num)]
  norm_num

/-- C5 (amended): in every reachable state, stats reports the running hit and
miss counters and the current size, hits + misses equals the number of get
operations performed, and hit_rate_percent equals 100*hits/(hits+misses)
rounded to two decimal places when hits + misses > 0, else 0. -/
theorem weather_cache_stats_formula (ttlm : ℤ) (ops : List CacheOp) :
    (WeatherCache.get_stats (execCacheOps ttlm ops)).hits = ((execCacheOps ttlm ops).hits : ℚ)
    ∧ (WeatherCache.get_stats (execCacheOps ttlm ops)).misses
        = ((execCacheOps ttlm ops).misses : ℚ)
    ∧ (WeatherCache.get_stats (execCacheOps ttlm ops)).size
        = ((execCacheOps ttlm ops).cache.length : ℚ)
    ∧ (execCacheOps ttlm ops).hits + (execCacheOps ttlm ops).misses = countGets ops
    ∧ (0 < (execCacheOps ttlm ops).hits + (execCacheOps ttlm ops).misses →
        (WeatherCache.get_stats (execCacheOps ttlm ops)).hit_rate_percent
          = round2 (100 * ((execCacheOps ttlm ops).hits : ℚ)
              / (((execCacheOps ttlm ops).hits : ℚ) + ((execCacheOps ttlm ops).misses : ℚ))))
    ∧ ((execCacheOps ttlm ops).hits + (execCacheOps ttlm ops).misses = 0 →
        (WeatherCache.get_stats (execCacheOps ttlm ops)).hit_rate_percent = 0) := by
  refine ⟨rfl, rfl, rfl, ?_, ?_, ?_⟩
  · simpa [execCacheOps, WeatherCache.init] using foldl_total ops (WeatherCache.init ttlm)
  · intro hpos
    show round2 _ = round2 _
    rw [if_pos hpos]
    ring_nf
  · intro hzero
    show round2 _ = 0
    rw [if_neg (by omega)]
    unfold round2
    rw [roundHalfEven_eval _ 0 (by norm_num) (by norm_num)]
    norm_num

/-- Witness for C5 (amended) on a concrete one-get trace. -/
theorem weather_cache_stats_formula_witness :
    0 < (execCacheOps 10 [CacheOp.get 0 "x"]).hits + (execCacheOps 10 [CacheOp.get 0 "x"]).misses
    ∧ (WeatherCache.get_stats (execCacheOps 10 [CacheOp.get 0 "x"])).hit_rate_percent
        = round2 (100 * ((execCacheOps 10 [CacheOp.get 0 "x"]).hits : ℚ)
            / (((execCacheOps 10 [CacheOp.get 0 "x"]).hits : ℚ)
              + ((execCacheOps 10 [CacheOp.get 0 "x"]).misses : ℚ))) :=
  ⟨by decide, (weather_cache_stats_formula 10 [CacheOp.get 0 "x"]).2.2.2.2.1 (by decide)⟩

/-! ### Claim theorems for model rotation -/

theorem get_next_llm_model_spec (env : LlmEnv) (c : ℕ) (h : get_llm_models env ≠ []) :
    (get_llm_models env).get? (c % (get_llm_models env).length)
        = some (get_next_llm_model env c).1
    ∧ (get_next_llm_model env c).2 = c + 1 := by
  have hne : (get_llm_models env).isEmpty = false := by
    simpa [List.isEmpty_iff] using h
  have hlen : 0 < (get_llm_models env).length := List.length_pos.mpr h
  have hm : c % (get_llm_models env).length < (get_llm_models env).length :=
    Nat.mod_lt _ hlen
  constructor
  · simp only [get_next_llm_model, hne, Bool.false_eq_true, if_false]
    rw [List.getD_eq_get?]
    cases hg : (get_llm_models env).get? (c % (get_llm_models env).length) with
    | none => exact absurd (List.get?_eq_none.mp hg) (by omega)
    | some v => rfl
  · simp [get_next_llm_model, hne]

/-- C6: get_next_llm_model returns models[counter mod len(models)] and then
increments the counter; the sequence has period len(models) and covers every
configured model; an empty model list falls back to the default identifier,
and an unset LLM_MODELS yields the single-model fallback list. -/
theorem llm_model_rotation (env : LlmEnv) (c : ℕ) :
    (get_llm_models env ≠ [] →
        (get_llm_models env).get? (c % (get_llm_models env).length)
            = some (get_next_llm_model env c).1
        ∧ (get_next_llm_model env c).2 = c + 1
        ∧ (get_next_llm_model env (c + (get_llm_models env).length)).1
            = (get_next_llm_model env c).1
        ∧ ∀ i, i < (get_llm_models env).length →
            ∃ j, j < (get_llm_models env).length
              ∧ (get_llm_models env).get? i = some (get_next_llm_model env (c + j)).1)
    ∧ (get_llm_models env = [] → get_next_llm_model env c = ("gpt-4o-mini", c))
    ∧ (env.llmModels = "" → get_llm_models env = [env.llmModel.getD "gpt-4o-mini"]) := by
  refine ⟨?_, ?_, ?_⟩
  · intro h
    have hlen : 0 < (get_llm_models env).length := List.length_pos.mpr h
    refine ⟨(get_next_llm_model_spec env c h).1, (get_next_llm_model_spec env c h).2, ?_, ?_⟩
    · have h1 := (get_next_llm_model_spec env (c + (get_llm_models env).length) h).1
      have h2 := (get_next_llm_model_spec env c h).1
      rw [Nat.add_mod_right] at h1
      rw [h2] at h1
      exact (Option.some_injective _ h1).symm
    · intro i hi
      refine ⟨(i + (get_llm_models env).length - c % (get_llm_models env).length)
          % (get_llm_models env).length, Nat.mod_lt _ hlen, ?_⟩
      have hr : c % (get_llm_models env).length < (get_llm_models env).length :=
        Nat.mod_lt _ hlen
      have hkey : (c + (i + (get_llm_models env).length - c % (get_llm_models env).length)
          % (get_llm_models env).length) % (get_llm_models env).length = i := by
        have e1 : c + (i + (get_llm_models env).length - c % (get_llm_models env).length)
              % (get_llm_models env).length
            ≡ c % (get_llm_models env).length
              + (i + (get_llm_models env).length - c % (get_llm_models env).length)
              [MOD (get_llm_models env).length] :=
          Nat.ModEq.add ((Nat.mod_modEq c _).symm) (Nat.mod_modEq _ _)
        have e2 : c % (get_llm_models env).length
              + (i + (get_llm_models env).length - c % (get_llm_models env).length)
            = i + (get_llm_models env).length := by omega
        have e3 : (i + (get_llm_models env).length) % (get_llm_models env).length = i := by
          rw [Nat.add_mod_right]
          exact Nat.mod_eq_of_lt hi
        calc (c + (i + (get_llm_models env).length - c % (get_llm_models env).length)
                % (get_llm_models env).length) % (get_llm_models env).length
            = (c % (get_llm_models env).length
                + (i + (get_llm_models env).length - c % (get_llm_models env).length))
                % (get_llm_models env).length := e1
          _ = i := by rw [e2, e3]
      have := (get_next_llm_model_spec env
        (c + (i + (get_llm_models env).length - c % (get_llm_models env).length)
          % (get_llm_models env).length) h).1
      rwa [hkey] at this
  · intro h
    simp [get_next_llm_model, h]
  · intro h
    simp [get_llm_models, h]

/-- Witness for C6 with two configured models and counter 0. -/
theorem llm_model_rotation_witness :
    (get_llm_models ⟨"gpt-4o, gpt-4o-mini", none⟩ ≠ []
      ∧ (get_llm_models ⟨"gpt-4o, gpt-4o-mini", none⟩).get?
          (0 % (get_llm_models ⟨"gpt-4o, gpt-4o-mini", none⟩).length)
          = some (get_next_llm_model ⟨"gpt-4o, gpt-4o-mini", none⟩ 0).1)
    ∧ (get_llm_models ⟨"", some "m1"⟩ = ["m1"]) := by
  refine ⟨⟨by decide, ?_⟩, ?_⟩
  · exact ((llm_model_rotation ⟨"gpt-4o, gpt-4o-mini", none⟩ 0).1 (by decide)).1
  · exact (llm_model_rotation ⟨"", some "m1"⟩ 0).2.2 rfl

/-! ### Claim theorems for the retry loop -/

theorem retryGo_delays (failAt : ℕ → Bool) :
    ∀ r d a j, j < (retryGo failAt d a r).delays.length →
      (retryGo failAt d a r).delays.get? j = some (d * 2 ^ j) := by
  intro r
  induction r with
  | zero => intro d a j h; simp [retryGo] at h
  | succ r ih =>
      intro d a j h
      by_cases hf : failAt a
      · by_cases hr : r = 0
        · subst hr; simp [retryGo, hf] at h
        · simp only [retryGo, if_pos hf, if_neg hr] at h ⊢
          cases j with
          | zero => simp
          | succ j =>
              simp only [List.length_cons, Nat.succ_lt_succ_iff] at h
              have := ih (d * 2) (a + 1) j h
              simp only [List.get?_cons_succ, this]
              congr 1
              ring
      · simp [retryGo, hf] at h

theorem retryGo_attempts_le (failAt : ℕ → Bool) :
    ∀ r d a, (retryGo failAt d a r).attempts ≤ r := by
  intro r
  induction r with
  | zero => intro d a; simp [retryGo]
  | succ r ih =>
      intro d a
      by_cases hf : failAt a
      · by_cases hr : r = 0
        · subst hr; simp [retryGo, hf]
        · simp only [retryGo, if_pos hf, if_neg hr]
          exact Nat.succ_le_succ (ih (d * 2) (a + 1))
      · simp [retryGo, hf]

theorem retryGo_allfail (failAt : ℕ → Bool) (hall : ∀ k, failAt k = true) :
    ∀ r d a, (retryGo failAt d a r).success = false
      ∧ (retryGo failAt d a r).attempts = r
      ∧ (retryGo failAt d a r).delays.length = r - 1 := by
  intro r
  induction r with
  | zero => intro d a; simp [retryGo]
  | succ r ih =>
      intro d a
      by_cases hr : r = 0
      · subst hr; simp [retryGo, hall a]
      · have h := ih (d * 2) (a + 1)
        simp only [retryGo, if_pos (hall a), if_neg hr]
        refine ⟨h.1, by rw [h.2.1], ?_⟩
        simp only [List.length_cons, h.2.2]
        omega

/-- C7: during registry startup the sleep before retry attempt k+1 is the base
delay 1s times 2^(k-1) (delays list entry j holds 1*2^j), the number of
attempts never exceeds max_retries = 5, and when every attempt fails the loop
re-raises (success = false) after exactly 5 attempts and 4 sleeps. -/
theorem init_retry_backoff (failAt : ℕ → Bool) :
    (∀ j, j < (initToolAdapters failAt).delays.length →
        (initToolAdapters failAt).delays.get? j = some (1 * 2 ^ j))
    ∧ (initToolAdapters failAt).attempts ≤ 5
    ∧ ((∀ k, failAt k = true) →
        (initToolAdapters failAt).success = false
        ∧ (initToolAdapters failAt).attempts = 5
        ∧ (initToolAdapters failAt).delays.length = 4) := by
  refine ⟨fun j h => retryGo_delays failAt 5 1 0 j h, retryGo_attempts_le failAt 5 1 0, ?_⟩
  intro hall
  exact (retryGo_allfail failAt hall 5 1 0)

/-- Witness for C7: two failures then success yields delays 1s and 2s and three
attempts; all failures yields a re-raised error after five attempts. -/
theorem init_retry_backoff_witness :
    1 < (initToolAdapters (fun k => decide (k < 2))).delays.length
    ∧ (initToolAdapters (fun k => decide (k < 2))).delays.get? 1 = some (1 * 2 ^ 1)
    ∧ (initToolAdapters (fun _ => true)).success = false
    ∧ (initToolAdapters (fun _ => true)).attempts = 5 := by
  refine ⟨by decide, (init_retry_backoff (fun k => decide (k < 2))).1 1 (by decide), ?_, ?_⟩
  · exact ((init_retry_backoff (fun _ => true)).2.2 (fun k => rfl)).1
  · exact ((init_retry_backoff (fun _ => true)).2.2 (fun k => rfl)).2.1

/-! ### Claim theorems for concurrent setup callers -/

/-- C2 counterexample: two callers that both pass the boolean check of line 140
before either finishes both start their own connection batch: after the
schedule [0, 1] two attempts are in flight, refuting single-flight. -/
theorem single_flight_counterexample :
    (runTasks (regStart 2) [0, 1]).inFlight = 2
    ∧ (runTasks (regStart 2) [0, 1]).attemptsStarted = 2
    ∧ ¬ (runTasks (regStart 2) [0, 1]).inFlight ≤ 1 := by decide

/-- C2 (amended): a caller that reaches the flag check after initialization has
completed starts no connection attempt; but callers that all pass the check
while the flag is still false each start their own batch — with two concurrent
callers the sequential schedule performs one attempt while the interleaved
schedule performs two. -/
theorem ensure_inited_amended :
    (∀ (s : RegState) (i : ℕ), s.inited = true → s.pcs[i]? = some TaskPc.start →
        (stepTask s i).attemptsStarted = s.attemptsStarted
        ∧ (stepTask s i).inFlight = s.inFlight)
    ∧ (runTasks (regStart 2) [0, 0, 1]).attemptsStarted = 1
    ∧ (runTasks (regStart 2) [0, 1]).attemptsStarted = 2 := by
  refine ⟨?_, by decide, by decide⟩
  intro s i h1 h2
  simp [stepTask, h2, h1]

/-- Witness for C2 (amended): a task at the check with the flag already true
starts nothing. -/
theorem ensure_inited_amended_witness :
    (stepTask ⟨true, [TaskPc.start], 0, 0⟩ 0).attemptsStarted = 0
    ∧ (stepTask ⟨true, [TaskPc.start], 0, 0⟩ 0).inFlight = 0 :=
  ensure_inited_amended.1 ⟨true, [TaskPc.start], 0, 0⟩ 0 rfl rfl

/-! ### Claim theorems for attempt atomicity -/

theorem lookupKey_delKey_ne {α : Type} (k k' : String) (h : k' ≠ k)
    (m : List (String × α)) : lookupKey k' (delKey k m) = lookupKey k' m := by
  induction m with
  | nil => rfl
  | cons p m ih =>
      obtain ⟨k2, v⟩ := p
      by_cases h2 : k2 = k
      · have hne : k2 ≠ k' := fun hh => h (hh ▸ h2)
        simp only [delKey, if_pos h2, lookupKey, if_neg hne]
        exact ih
      · simp only [delKey, if_neg h2, lookupKey]
        by_cases h3 : k2 = k'
        · simp [h3]
        · simp [h3, ih]

theorem attemptGo_fail {conn : String → Option ℕ} :
    ∀ (ns : List String) (st : AdapterRegistry), (∃ n ∈ ns, conn n = none) →
      (attemptGo conn ns st).inited = st.inited := by
  intro ns
  induction ns with
  | nil => intro st h; simp at h
  | cons m ns ih =>
      intro st h
      cases hc : conn m with
      | none => simp [attemptGo, hc]
      | some v =>
          simp only [attemptGo, hc]
          obtain ⟨n, hn, hnone⟩ := h
          rcases List.mem_cons.mp hn with rfl | hn2
          · rw [hc] at hnone; cases hnone
          · exact ih _ ⟨n, hn2, hnone⟩

theorem attemptGo_lookup_stable {conn : String → Option ℕ} :
    ∀ (ns : List String) (st : AdapterRegistry) (n : String), n ∉ ns →
      lookupKey n (attemptGo conn ns st).cache = lookupKey n st.cache := by
  intro ns
  induction ns with
  | nil => intro st n _; rfl
  | cons m ns ih =>
      intro st n hn
      have hne : n ≠ m := fun hh : n = m => hn (hh ▸ List.mem_cons_self m ns)
      have hne2 : ¬ (m = n) := fun hh : m = n => hne hh.symm
      have hn2 : n ∉ ns := fun hh => hn (List.mem_cons_of_mem m hh)
      cases hc : conn m with
      | none => simp [attemptGo, hc]
      | some v =>
          simp only [attemptGo, hc]
          rw [ih _ n hn2]
          simp only [lookupKey, if_neg hne2]
          exact lookupKey_delKey_ne m n hne st.cache

theorem attemptGo_ok {conn : String → Option ℕ} :
    ∀ (ns : List String) (st : AdapterRegistry), ns.Nodup →
      (∀ n ∈ ns, (conn n).isSome) →
      (attemptGo conn ns st).inited = true
      ∧ ∀ n ∈ ns, lookupKey n (attemptGo conn ns st).cache = conn n := by
  intro ns
  induction ns with
  | nil => intro st _ _; exact ⟨rfl, by simp⟩
  | cons m ns ih =>
      intro st hnd hsome
      have hm : (conn m).isSome := hsome m (List.mem_cons_self m ns)
      cases hc : conn m with
      | none => rw [hc] at hm; cases hm
      | some v =>
          have hmn : m ∉ ns := (List.nodup_cons.mp hnd).1
          have ihr := ih { st with cache := (m, v) :: delKey m st.cache }
            (List.nodup_cons.mp hnd).2
            (fun n hn => hsome n (List.mem_cons_of_mem m hn))
          refine ⟨by simpa [attemptGo, hc] using ihr.1, ?_⟩
          intro n hn
          rcases List.mem_cons.mp hn with rfl | hn2
          · simp only [attemptGo, hc]
            rw [attemptGo_lookup_stable ns _ n hmn]
            simp [lookupKey, hc]
          · simp only [attemptGo, hc]
            exact ihr.2 n hn2

/-- C3 counterexample: with the first connection succeeding and the second
raising, an attempt from the empty registry leaves the calculator handle
published in the cache dict — the registry state is changed by the failed
attempt. -/
theorem adapter_attempt_counterexample :
    (attemptGo failSecondConn adapterNames ⟨[], false⟩).cache = [("calculator", 7)]
    ∧ (attemptGo failSecondConn adapterNames ⟨[], false⟩).cache ≠ [] := by decide

/-- C3 (amended): a failed attempt never publishes the initialized flag (so a
handler that checks the flag sees no partial set), and a fully successful
attempt — from any starting state, including the leftovers of failed
attempts — publishes the flag with every one of the four handles bound to the
new connection's handle; but handles established before the failing connection
do remain in the cache dict after a failed attempt. -/
theorem adapter_attempt_amended :
    (∀ (conn : String → Option ℕ) (st : AdapterRegistry),
        (∃ n ∈ adapterNames, conn n = none) →
        (attemptGo conn adapterNames st).inited = st.inited)
    ∧ (∀ (conn : String → Option ℕ) (st : AdapterRegistry),
        (∀ n ∈ adapterNames, (conn n).isSome) →
        (attemptGo conn adapterNames st).inited = true
        ∧ ∀ n ∈ adapterNames, lookupKey n (attemptGo conn adapterNames st).cache = conn n)
    ∧ (attemptGo failSecondConn adapterNames ⟨[], false⟩).cache ≠ [] := by
  refine ⟨?_, ?_, by decide⟩
  · intro conn st h
    exact attemptGo_fail adapterNames st h
  · intro conn st h
    exact attemptGo_ok adapterNames st (by decide) h

/-- Witness for C3 (amended): the failing connector leaves the flag down even
from a dirty cache; an all-successful connector publishes the flag. -/
theorem adapter_attempt_amended_witness :
    (attemptGo failSecondConn adapterNames ⟨[("stale", 9)], false⟩).inited = false
    ∧ (attemptGo (fun _ => some 1) adapterNames ⟨[], false⟩).inited = true := by
  constructor
  · exact adapter_attempt_amended.1 failSecondConn ⟨[("stale", 9)], false⟩
      ⟨"get_weather", by decide, rfl⟩
  · exact (adapter_attempt_amended.2.1 (fun _ => some 1) ⟨[], false⟩ (fun n _ => rfl)).1

/-! ### Claim theorems for body replay -/

theorem drainMessages_spec :
    ∀ (fuel : ℕ) (st : ReceiveState),
      st.body_cache.length - st.body_index + st.upstream.length ≤ fuel →
      drainMessages fuel st = st.body_cache.drop st.body_index ++ st.upstream := by
  intro fuel
  induction fuel with
  | zero =>
      intro st h
      have h1 : st.body_cache.length ≤ st.body_index := by omega
      have h2 : st.upstream = [] := by
        cases hu : st.upstream with
        | nil => rfl
        | cons a l => rw [hu] at h; simp at h
      rw [drainMessages, List.drop_eq_nil_of_le h1, h2]
      rfl
  | succ fuel ih =>
      intro st h
      by_cases hlt : st.body_index < st.body_cache.length
      · simp only [drainMessages, receive_wrapper, dif_pos hlt]
        rw [ih { st with body_index := st.body_index + 1 } (by simp; omega)]
        conv_rhs => rw [List.drop_eq_getElem_cons hlt]
        simp only [List.get_eq_getElem, List.cons_append]
      · simp only [drainMessages, receive_wrapper, dif_neg hlt]
        rw [List.drop_eq_nil_of_le (by omega)]
        cases hu : st.upstream with
        | nil => rfl
        | cons m rest =>
            simp only [List.nil_append]
            have h2 : st.body_cache.length - st.body_index + rest.length ≤ fuel := by
              rw [hu] at h; simp only [List.length_cons] at h; omega
            rw [ih { st with upstream := rest } (by simpa using h2)]
            rw [List.drop_eq_nil_of_le (by simp; omega)]
            rfl

/-- C1: for an http request whose first body chunk the gateway consumed for
inspection (an http.request message), the downstream handler reading through
receive_wrapper observes exactly the original message sequence: the cached
first chunk on its first read, then the untouched remainder of the stream. -/
theorem gateway_replay (first : AsgiMessage) (rest : List AsgiMessage) :
    first.msgType = "http.request" →
    (receive_wrapper (gatewaySetup (first :: rest))).1 = some first
    ∧ drainMessages (1 + rest.length) (gatewaySetup (first :: rest)) = first :: rest := by
  intro h
  constructor
  · simp [gatewaySetup, receive_wrapper, h]
  · rw [gatewaySetup, if_pos h]
    rw [drainMessages_spec (1 + rest.length) ⟨[first], 0, rest⟩ (by simp)]
    rfl

/-- Witness for C1 on the spec's calculator tools/call body as the single
request chunk. -/
theorem gateway_replay_witness :
    (receive_wrapper (gatewaySetup
        [⟨"http.request", "\x7b\"method\":\"tools/call\"\x7d", false⟩])).1
      = some ⟨"http.request", "\x7b\"method\":\"tools/call\"\x7d", false⟩
    ∧ drainMessages 1 (gatewaySetup
        [⟨"http.request", "\x7b\"method\":\"tools/call\"\x7d", false⟩])
      = [⟨"http.request", "\x7b\"method\":\"tools/call\"\x7d", false⟩] :=
  gateway_replay ⟨"http.request", "\x7b\"method\":\"tools/call\"\x7d", false⟩ [] rfl

/-! ### Claim theorems for the middleware failure semantics -/

/-- C8: the claim that every error in label computation is swallowed is right
about the intent but wrong about the code: a body that is valid JSON but not
an object — here [1, 2] — makes mcp_message.get raise AttributeError, which
neither the inner except of line 157 nor the outer except of line 164
catches, so the middleware raises before the downstream handler runs and the
request fails. A genuine decode failure (non-JSON body) is caught and does
fall back to the path-derived name. -/
theorem middleware_inspection_code_bug :
    middlewareOutcome "/mcp" false (some (PyVal.list [PyVal.int 1, PyVal.int 2]))
        = Except.error PyExc.attributeError
    ∧ middlewareOutcome "/mcp" false none = Except.ok (pathFallbackName "/mcp")
    ∧ ¬ outerCaught PyExc.attributeError ∧ ¬ innerCaught PyExc.attributeError :=
  ⟨rfl, rfl, by decide, by decide⟩

/-! ### Claim theorems for the chat error path -/

/-- C9 counterexample: a failing LLM call in POST /chat is not turned into a
chat payload: the /chat handler has no try/except, so the error propagates out
of the handler (an HTTP 500), refuting the claim that it is surfaced as a
textual error inside the chat response payload. -/
theorem chat_error_counterexample :
    chatEndpoint "rid" "what is 2+2" "gpt-4o-mini" 5 (Except.error "LLM call failed")
      = Except.error "LLM call failed" := rfl

/-- C9 (amended): a per-request LLM failure in POST /chat propagates as an
unhandled exception out of the handler (surfaced by the framework as an HTTP
5xx); only POST /feedback degrades failures to an error payload, returning a
payload in both the success and failure cases. -/
theorem chat_error_amended :
    (∀ (rid msg model : String) (d : ℕ) (e : String),
        chatEndpoint rid msg model d (Except.error e) = Except.error e)
    ∧ (∀ (tid : String) (r : ℤ) (e : String),
        feedbackEndpoint tid r (Except.error e) = FeedbackResponse.failure tid e)
    ∧ (∀ (tid : String) (r : ℤ),
        feedbackEndpoint tid r (Except.ok ()) = FeedbackResponse.success tid r) :=
  ⟨fun _ _ _ _ _ => rfl, fun _ _ _ => rfl, fun _ _ => rfl⟩

/-! ### Claim theorems for response text extraction -/

theorem joinStrs_strs : ∀ (ss : List String),
    joinStrs (ss.map PyVal.str) = Except.ok (ss.foldr (· ++ ·) "") := by
  intro ss
  induction ss with
  | nil => rfl
  | cons s ss ih => simp only [List.map_cons, joinStrs, ih, List.foldr_cons]

/-- C10 counterexample: a list consisting of one typed non-text block does not
extract to the empty text: text_parts is empty, so the code falls back to
str(content), the string rendering of the whole list — the non-text block's
content reaches the extracted text. -/
theorem extract_text_counterexample :
    extractResponseText (some (PyVal.list [imageBlock]))
        = Except.ok "[\x7b\x27type\x27: \x27image\x27, \x27url\x27: \x27u\x27\x7d]"
    ∧ ("[\x7b\x27type\x27: \x27image\x27, \x27url\x27: \x27u\x27\x7d]" : String) ≠ "" :=
  ⟨rfl, by decide⟩

/-- C10 (amended): a string content is returned as is; when the block list
yields at least one text part, non-contributing blocks (typed non-text dicts
and anything else that is neither a text dict nor a bare string) can be
removed without changing the extraction, and the result is the concatenation
of the text parts; but when no block yields a text part the extraction falls
back to str(content) for the whole list instead of the empty string. -/
theorem extract_text_amended :
    (∀ s, extractResponseText (some (PyVal.str s)) = Except.ok s)
    ∧ (∀ bs1 bs2 b, blockTextPart b = none →
        (bs1 ++ bs2).filterMap blockTextPart ≠ [] →
        extractResponseText (some (PyVal.list (bs1 ++ b :: bs2)))
          = extractResponseText (some (PyVal.list (bs1 ++ bs2))))
    ∧ (∀ bs ss, bs.filterMap blockTextPart = ss.map PyVal.str → ss ≠ [] →
        extractResponseText (some (PyVal.list bs)) = Except.ok (ss.foldr (· ++ ·) ""))
    ∧ (∀ bs, bs.filterMap blockTextPart = [] →
        extractResponseText (some (PyVal.list bs)) = Except.ok (pyStr (PyVal.list bs))) := by
  refine ⟨fun s => rfl, ?_, ?_, ?_⟩
  · intro bs1 bs2 b hb hne
    have hfm : (bs1 ++ b :: bs2).filterMap blockTextPart
        = (bs1 ++ bs2).filterMap blockTextPart := by
      simp [List.filterMap_append, List.filterMap_cons, hb]
    cases hl : (bs1 ++ bs2).filterMap blockTextPart with
    | nil => exact absurd hl hne
    | cons p ps => simp only [extractResponseText, hfm, hl]
  · intro bs ss hmap hne
    cases hss : ss with
    | nil => exact absurd hss hne
    | cons s ss2 =>
        subst hss
        simp only [extractResponseText, hmap, List.map_cons]
        exact joinStrs_strs (s :: ss2)
  · intro bs hfm
    simp only [extractResponseText, hfm]

/-- Witness for C10 (amended): dropping the image block next to a text block
leaves the extraction unchanged, and a single bare-string part extracts to its
own text. -/
theorem extract_text_amended_witness :
    extractResponseText (some (PyVal.list [PyVal.str "a", imageBlock]))
        = extractResponseText (some (PyVal.list [PyVal.str "a"]))
    ∧ extractResponseText (some (PyVal.list [PyVal.str "a"]))
        = Except.ok (["a"].foldr (· ++ ·) "") := by
  constructor
  · exact extract_text_amended.2.1 [PyVal.str "a"] [] imageBlock rfl
      (by intro h; simp [blockTextPart] at h)
  · exact extract_text_amended.2.2.1 [PyVal.str "a"] ["a"] rfl (by decide)

end Spec2Proof
